import Mathlib

/-!
Shallow embedding of `proxy-router-rs` (files `src/proxy.rs` and
`src/router/socks5.rs`) for checking the natural-language specification
against the code.

External I/O (TCP connects, protocol handshakes, DNS resolution, the
bidirectional copy, the timeout race) is modelled by oracles: environment
records carrying the outcome each external operation would produce on this
particular run. The functions of the repository are translated from the
Rust source over those oracles; machine integers (ports, byte values,
transferred counts) are `Nat` since the code performs no arithmetic on them.
-/

namespace ProxyRouter

instance instDecEqExcept {ε α : Type} [DecidableEq ε] [DecidableEq α] :
    DecidableEq (Except ε α)
  | .error a, .error b =>
    if h : a = b then .isTrue (congrArg Except.error h)
    else .isFalse (fun c => h (Except.error.inj c))
  | .error _, .ok _ => .isFalse (fun c => Except.noConfusion c)
  | .ok _, .error _ => .isFalse (fun c => Except.noConfusion c)
  | .ok a, .ok b =>
    if h : a = b then .isTrue (congrArg Except.ok h)
    else .isFalse (fun c => h (Except.ok.inj c))

/-! ### Dependency vocabulary (std / async_http_proxy / fast_socks5 / url) -/

/-- `std::io::ErrorKind`: the kinds the code discriminates on, plus a
parameterized `other` constructor covering every remaining kind. -/
inductive IOErrorKind where
  | connectionRefused
  | connectionAborted
  | connectionReset
  | notConnected
  | timedOut
  | brokenPipe
  | other (code : Nat)
deriving DecidableEq, Repr

/-- `fast_socks5::ReplyError`: the fixed SOCKS5 reply vocabulary. -/
inductive ReplyError where
  | succeeded
  | generalFailure
  | connectionNotAllowed
  | networkUnreachable
  | hostUnreachable
  | connectionRefused
  | ttlExpired
  | commandNotSupported
  | addressTypeNotSupported
  | connectionTimeout
deriving DecidableEq, Repr

/-- `fast_socks5::Socks5Command`. -/
inductive Socks5Command where
  | tcpConnect
  | tcpBind
  | udpAssociate
deriving DecidableEq, Repr

/-- `url::ParseError`, abstract: the code only forwards it. -/
structure ParseError where
  code : Nat
deriving DecidableEq, Repr

/-- `async_http_proxy::HttpError`: the `IoError` variant the code inspects,
plus a catch-all for the other handshake failures. -/
inductive HttpError where
  | ioError (kind : IOErrorKind)
  | other (code : Nat)
deriving DecidableEq, Repr

/-- `fast_socks5::SocksError`: the variants the code constructs or inspects
(`Io`, `ReplyError`, `Other(anyhow)`), plus a catch-all. -/
inductive SocksError where
  | ioErr (kind : IOErrorKind)
  | replyErr (reply : ReplyError)
  | anyhowErr (msg : String)
  | other (code : Nat)
deriving DecidableEq, Repr

/-! ### Data model of `src/proxy.rs` -/

inductive ProxyProtocol where
  | http
  | socks5
deriving DecidableEq, Repr

structure BasicAuth where
  username : String
  password : String
deriving DecidableEq, Repr

inductive ProxyAuth where
  | none
  | basic (auth : BasicAuth)
deriving DecidableEq, Repr

structure Proxy where
  protocol : ProxyProtocol
  host : String
  port : Nat
  auth : ProxyAuth
deriving DecidableEq, Repr

inductive ProxyError where
  | urlParseError (err : ParseError)
  | invalidProtocol (protocol : String)
  | invalidHost
  | connectionTimeout
  | httpError (err : HttpError)
  | socksError (err : SocksError)
deriving DecidableEq, Repr

/-! ### `Proxy::from_url`

`Url::parse` belongs to the external `url` crate; its outcome is the oracle
`Except ParseError ParsedUrl`, where `ParsedUrl` records the accessors the
code calls: `scheme()`, `host_str()`, `port()`, `username()`, `password()`. -/

structure ParsedUrl where
  scheme : String
  host_str : Option String
  port : Option Nat
  username : String
  password : Option String
deriving DecidableEq, Repr

/-- Modelled from the `url` crate documentation: `Url::port_or_known_default`
returns the explicit port, or the scheme default, known only for the
`http`, `https`, `ws`, `wss` and `ftp` schemes. -/
def knownDefaultPort (scheme : String) : Option Nat :=
  if scheme = "http" then some 80
  else if scheme = "https" then some 443
  else if scheme = "ws" then some 80
  else if scheme = "wss" then some 443
  else if scheme = "ftp" then some 21
  else none

def ParsedUrl.port_or_known_default (u : ParsedUrl) : Option Nat :=
  match u.port with
  | some p => some p
  | none => knownDefaultPort u.scheme

/-- The auth computed by `Proxy::from_url` from the URL userinfo: Basic
credentials only when a password is present and the username is non-empty. -/
def ParsedUrl.urlAuth (u : ParsedUrl) : ProxyAuth :=
  match u.username, u.password with
  | username, some password =>
    if username ≠ "" then ProxyAuth.basic ⟨username, password⟩
    else ProxyAuth.none
  | _, _ => ProxyAuth.none

/-- `Proxy::from_url`, over the oracle result of `Url::parse`. The source's
match on the scheme string is rendered as the equivalent equality chain. -/
def Proxy.from_url (parse_result : Except ParseError ParsedUrl) :
    Except ProxyError Proxy :=
  match parse_result with
  | .error e => .error (.urlParseError e)
  | .ok parsed_url =>
    match
      (if parsed_url.scheme = "http" then Except.ok ProxyProtocol.http
       else if parsed_url.scheme = "https" then Except.ok ProxyProtocol.http
       else if parsed_url.scheme = "socks5" then Except.ok ProxyProtocol.socks5
       else Except.error (ProxyError.invalidProtocol parsed_url.scheme)) with
    | .error e => .error e
    | .ok protocol =>
      match parsed_url.host_str with
      | Option.none => .error .invalidHost
      | some host =>
        let port := parsed_url.port_or_known_default.getD 80
        .ok { protocol := protocol, host := host, port := port,
              auth := parsed_url.urlAuth }

/-! ### `Proxy::connect` and `Proxy::connect_with_timeout`

Streams are abstract handles (`Nat`). `ConnectEnv` is the oracle for the
external operations one `connect` call performs: the TCP connect to the
upstream address, the HTTP CONNECT handshake (plain or basic-auth), and the
SOCKS5 client handshake (no-auth or password). -/

structure ConnectEnv where
  tcpConnect : Except IOErrorKind Nat
  httpConnect : Except HttpError Unit
  httpConnectBasicAuth : Except HttpError Unit
  socks5Connect : Except SocksError Nat
  socks5ConnectWithPassword : Except SocksError Nat
deriving DecidableEq, Repr

/-- `Proxy::connect`: branch on protocol kind and auth exactly as the source
does; every failure is wrapped into `HttpError` or `SocksError` by the
`From` conversions the `?` operator applies. -/
def Proxy.connect (p : Proxy) (env : ConnectEnv)
    (target_host : String) (target_port : Nat) : Except ProxyError Nat :=
  match p.protocol with
  | .http =>
    match env.tcpConnect with
    | .error err => .error (.httpError (.ioError err))
    | .ok stream =>
      match p.auth with
      | .none =>
        match env.httpConnect with
        | .error e => .error (.httpError e)
        | .ok _ => .ok stream
      | .basic _ =>
        match env.httpConnectBasicAuth with
        | .error e => .error (.httpError e)
        | .ok _ => .ok stream
  | .socks5 =>
    match p.auth with
    | .none =>
      match env.socks5Connect with
      | .error e => .error (.socksError e)
      | .ok stream => .ok stream
    | .basic _ =>
      match env.socks5ConnectWithPassword with
      | .error e => .error (.socksError e)
      | .ok stream => .ok stream

/-- `tokio::time::timeout`: the oracle `elapsedFirst` says whether the timer
won the race; if so the inner result is discarded (`Err(Elapsed)`). -/
def tokioTimeout {α : Type} (elapsedFirst : Bool) (res : α) : Except Unit α :=
  if elapsedFirst then .error () else .ok res

/-- `Proxy::connect_with_timeout`: race `connect` against the timer and turn
an elapsed timer into `ProxyError::ConnectionTimeout`. -/
def Proxy.connect_with_timeout (p : Proxy) (env : ConnectEnv)
    (timerFiredFirst : Bool) (target_host : String) (target_port : Nat)
    (timeout : Nat) : Except ProxyError Nat :=
  match tokioTimeout timerFiredFirst (p.connect env target_host target_port) with
  | .ok res => res
  | .error _ => .error .connectionTimeout

/-! ### `src/router/socks5.rs`: data model -/

/-- `fast_socks5::util::target_addr::TargetAddr`: the client-requested
target of a SOCKS5 request. -/
inductive TargetAddr where
  | ipAddr (ip : String) (port : Nat)
  | domain (host : String) (port : Nat)
deriving DecidableEq, Repr

/-- `std::net::SocketAddr`, reduced to the accessors the code calls:
`ip().to_string()` and `port()`. -/
structure SocketAddr where
  ip : String
  port : Nat
deriving DecidableEq, Repr

/-- Observable actions of one connection handler run: the upstream connect
invocation with the arguments handed to `Proxy::connect_with_timeout`, the
replies written to the inbound client, the start of the bidirectional
relay, and the informational log lines. -/
inductive Event where
  | upstreamConnect (host : String) (port : Nat)
  | sentSuccessReply (bytes : List Nat)
  | sentFailureReply (code : ReplyError)
  | relayStarted
  | logInfo (msg : String)
deriving DecidableEq, Repr

/-- Oracle for the external operations of one `handle_socket` run:
the SOCKS5 upgrade handshake, the parsed command and target address,
the `to_socket_addrs` DNS resolution, the upstream connect (via
`ConnectEnv` plus the timeout-race outcome), the success-reply write and
flush, the `reply_error` write, and the bidirectional copy. -/
structure ConnEnv where
  upgrade : Except SocksError Unit
  command : Option Socks5Command
  targetAddr : Option TargetAddr
  resolve : Except IOErrorKind (List SocketAddr)
  cenv : ConnectEnv
  timerFiredFirst : Bool
  writeReply : Except IOErrorKind Nat
  flushReply : Except IOErrorKind Unit
  replyErrorSend : Except SocksError Unit
  copyBidirectional : Except IOErrorKind (Nat × Nat)
deriving DecidableEq, Repr

/-- `map_proxy_connect_error`: translate an upstream connect failure into a
SOCKS5 reply code, mirroring the two-phase structure of the source (first
extract the transport-level I/O error, then match on its kind). -/
def map_proxy_connect_error (err : ProxyError) : ReplyError :=
  match err with
  | ProxyError.connectionTimeout => ReplyError.connectionTimeout
  | _ =>
    let io_error : Option IOErrorKind :=
      match err with
      | ProxyError.httpError (HttpError.ioError e) => some e
      | ProxyError.socksError (SocksError.ioErr e) => some e
      | _ => Option.none
    match io_error with
    | some IOErrorKind.connectionRefused => ReplyError.connectionRefused
    | some IOErrorKind.connectionAborted => ReplyError.connectionNotAllowed
    | some IOErrorKind.connectionReset => ReplyError.connectionNotAllowed
    | some IOErrorKind.notConnected => ReplyError.networkUnreachable
    | _ => ReplyError.generalFailure

/-- The fixed success reply written on a successful upstream connect:
version 5, reply code 0 (succeeded), reserved 0, address type 1 (IPv4),
address 127.0.0.1, port 0. -/
def successReplyBytes : List Nat := [5, 0, 0, 1, 127, 0, 0, 1, 0, 0]

/-- `execute_command_connect`: resolve the target, connect upstream with
timeout, reply, then relay. Returns the event trace and the result. -/
def execute_command_connect (env : ConnEnv) (proxy : Proxy) (timeout : Nat) :
    List Event × Except SocksError Unit :=
  match env.targetAddr with
  | Option.none => ([], .error (.anyhowErr "Empty target address"))
  | some _ =>
    match env.resolve with
    | .error e => ([], .error (.ioErr e))
    | .ok addrs =>
      match addrs.head? with
      | Option.none => ([], .error (.anyhowErr "Unreachable target"))
      | some socket_addr =>
        let connectEv := Event.upstreamConnect socket_addr.ip socket_addr.port
        match proxy.connect_with_timeout env.cenv env.timerFiredFirst
            socket_addr.ip socket_addr.port timeout with
        | .error err =>
          ([connectEv], .error (.replyErr (map_proxy_connect_error err)))
        | .ok _ =>
          match env.writeReply with
          | .error _ => ([connectEv], .error (.anyhowErr "Cannot write successful reply"))
          | .ok _ =>
            let evs1 := [connectEv, Event.sentSuccessReply successReplyBytes]
            match env.flushReply with
            | .error _ => (evs1, .error (.anyhowErr "Cannot flush the reply"))
            | .ok _ =>
              let evs2 := evs1 ++ [Event.relayStarted]
              match env.copyBidirectional with
              | .ok (a, b) =>
                (evs2 ++ [.logInfo s!"Socket transfer finished ({a}, {b})"], .ok ())
              | .error e =>
                match e with
                | IOErrorKind.notConnected =>
                  (evs2 ++ [.logInfo "Socket transfer closed by client"], .ok ())
                | IOErrorKind.connectionReset =>
                  (evs2 ++ [.logInfo "Socket transfer closed by downstream proxy"], .ok ())
                | _ => (evs2, .error (.ioErr e))

/-- `execute_command`: dispatch on the parsed SOCKS5 command; everything but
`TCPConnect` (including an absent command) is `CommandNotSupported`. -/
def execute_command (env : ConnEnv) (proxy : Proxy) (timeout : Nat) :
    List Event × Except SocksError Unit :=
  match env.command with
  | Option.none => ([], .error (.replyErr .commandNotSupported))
  | some Socks5Command.tcpBind => ([], .error (.replyErr .commandNotSupported))
  | some Socks5Command.tcpConnect => execute_command_connect env proxy timeout
  | some Socks5Command.udpAssociate => ([], .error (.replyErr .commandNotSupported))

/-- `handle_socket`: upgrade the inbound socket to SOCKS5, execute the
command, and send a `reply_error` to the client when the failure is a
`SocksError::ReplyError`; any other failure is returned as is. -/
def handle_socket (env : ConnEnv) (proxy : Proxy) (timeout : Nat) :
    List Event × Except SocksError Unit :=
  match env.upgrade with
  | .error e => ([], .error e)
  | .ok _ =>
    match execute_command env proxy timeout with
    | (evs, .ok _) => (evs, .ok ())
    | (evs, .error (SocksError.replyErr err)) =>
      match env.replyErrorSend with
      | .error e2 => (evs, .error e2)
      | .ok _ => (evs ++ [.sentFailureReply err], .error (.replyErr err))
    | (evs, .error e) => (evs, .error e)

/-- Does this event deliver a reply to the inbound client? -/
def isClientReply : Event → Bool := fun e =>
  match e with
  | .sentSuccessReply _ => true
  | .sentFailureReply _ => true
  | _ => false

/-- The replies an event trace delivers to the inbound client. -/
def clientReplies (evs : List Event) : List Event :=
  evs.filter isClientReply

/-! ### Sample values used by witnesses and counterexamples -/

/-- A sample upstream endpoint: plain HTTP proxy, no auth. -/
def sampleProxy : Proxy := ⟨ProxyProtocol.http, "proxy.example", 8080, ProxyAuth.none⟩

/-- A sample connect oracle on which every external operation succeeds. -/
def sampleCEnvOk : ConnectEnv := ⟨.ok 7, .ok (), .ok (), .ok 7, .ok 7⟩

/-- A handler run whose BIND command must be rejected. -/
def bindCommandEnv : ConnEnv :=
  { upgrade := .ok (), command := some Socks5Command.tcpBind,
    targetAddr := Option.none, resolve := .ok [],
    cenv := sampleCEnvOk, timerFiredFirst := false,
    writeReply := .ok 10, flushReply := .ok (),
    replyErrorSend := .ok (), copyBidirectional := .ok (0, 0) }

/-- A CONNECT run whose DNS resolution of the target fails. -/
def dnsFailEnv : ConnEnv :=
  { upgrade := .ok (), command := some Socks5Command.tcpConnect,
    targetAddr := some (TargetAddr.domain "no-such-host.invalid" 443),
    resolve := .error (IOErrorKind.other 11001),
    cenv := sampleCEnvOk, timerFiredFirst := false,
    writeReply := .ok 10, flushReply := .ok (),
    replyErrorSend := .ok (), copyBidirectional := .ok (0, 0) }

/-- A CONNECT run that succeeds upstream and whose relay then fails with a
ConnectionReset transport error. -/
def resetCopyEnv : ConnEnv :=
  { upgrade := .ok (), command := some Socks5Command.tcpConnect,
    targetAddr := some (TargetAddr.domain "example.com" 443),
    resolve := .ok [⟨"93.184.216.34", 443⟩],
    cenv := sampleCEnvOk, timerFiredFirst := false,
    writeReply := .ok 10, flushReply := .ok (),
    replyErrorSend := .ok (), copyBidirectional := .error IOErrorKind.connectionReset }

/-- A CONNECT run whose upstream connect is refused at the transport level. -/
def refusedConnectEnv : ConnEnv :=
  { upgrade := .ok (), command := some Socks5Command.tcpConnect,
    targetAddr := some (TargetAddr.domain "example.com" 443),
    resolve := .ok [⟨"93.184.216.34", 443⟩],
    cenv := { sampleCEnvOk with tcpConnect := .error IOErrorKind.connectionRefused },
    timerFiredFirst := false,
    writeReply := .ok 10, flushReply := .ok (),
    replyErrorSend := .ok (), copyBidirectional := .ok (0, 0) }

/-- A CONNECT run on which everything succeeds and the relay ends cleanly. -/
def cleanRunEnv : ConnEnv :=
  { upgrade := .ok (), command := some Socks5Command.tcpConnect,
    targetAddr := some (TargetAddr.domain "example.com" 443),
    resolve := .ok [⟨"93.184.216.34", 443⟩],
    cenv := sampleCEnvOk, timerFiredFirst := false,
    writeReply := .ok 10, flushReply := .ok (),
    replyErrorSend := .ok (), copyBidirectional := .ok (42, 37) }

/-- Transport-level I/O failure of kind `k`: the upstream connect error wraps
an I/O error through either the HTTP or the SOCKS5 dependency. -/
def TransportIo (e : ProxyError) (k : IOErrorKind) : Prop :=
  e = ProxyError.httpError (HttpError.ioError k)
  ∨ e = ProxyError.socksError (SocksError.ioErr k)

/-! ### Theorems -/

/-- C1: `map_proxy_connect_error` maps every upstream `ConnectError` to
exactly one `ReplyCode` following the fixed table: `ConnectionTimeout` to the
`ConnectionTimeout` reply; a transport-level `ConnectionRefused` I/O error to
the `ConnectionRefused` reply; transport-level `ConnectionAborted` or
`ConnectionReset` to `ConnectionNotAllowed`; transport-level `NotConnected`
to `NetworkUnreachable`; and every other protocol or transport failure to
`GeneralFailure` — the mapping is total, with no unmapped case. -/
theorem map_proxy_connect_error_follows_table :
    map_proxy_connect_error ProxyError.connectionTimeout = ReplyError.connectionTimeout
    ∧ (∀ e : ProxyError, TransportIo e IOErrorKind.connectionRefused →
        map_proxy_connect_error e = ReplyError.connectionRefused)
    ∧ (∀ e : ProxyError,
        TransportIo e IOErrorKind.connectionAborted
          ∨ TransportIo e IOErrorKind.connectionReset →
        map_proxy_connect_error e = ReplyError.connectionNotAllowed)
    ∧ (∀ e : ProxyError, TransportIo e IOErrorKind.notConnected →
        map_proxy_connect_error e = ReplyError.networkUnreachable)
    ∧ (∀ e : ProxyError, e ≠ ProxyError.connectionTimeout →
        ¬ TransportIo e IOErrorKind.connectionRefused →
        ¬ TransportIo e IOErrorKind.connectionAborted →
        ¬ TransportIo e IOErrorKind.connectionReset →
        ¬ TransportIo e IOErrorKind.notConnected →
        map_proxy_connect_error e = ReplyError.generalFailure) := by
  refine ⟨rfl, ?_, ?_, ?_, ?_⟩
  · rintro e (rfl | rfl) <;> rfl
  · rintro e ((rfl | rfl) | (rfl | rfl)) <;> rfl
  · rintro e (rfl | rfl) <;> rfl
  · intro e hne h1 h2 h3 h4
    cases e with
    | connectionTimeout => exact absurd rfl hne
    | urlParseError p => rfl
    | invalidProtocol s => rfl
    | invalidHost => rfl
    | httpError he =>
      cases he with
      | other c => rfl
      | ioError k =>
        cases k with
        | connectionRefused => exact absurd (Or.inl rfl) h1
        | connectionAborted => exact absurd (Or.inl rfl) h2
        | connectionReset => exact absurd (Or.inl rfl) h3
        | notConnected => exact absurd (Or.inl rfl) h4
        | timedOut => rfl
        | brokenPipe => rfl
        | other c => rfl
    | socksError se =>
      cases se with
      | replyErr r => rfl
      | anyhowErr m => rfl
      | other c => rfl
      | ioErr k =>
        cases k with
        | connectionRefused => exact absurd (Or.inr rfl) h1
        | connectionAborted => exact absurd (Or.inr rfl) h2
        | connectionReset => exact absurd (Or.inr rfl) h3
        | notConnected => exact absurd (Or.inr rfl) h4
        | timedOut => rfl
        | brokenPipe => rfl
        | other c => rfl

/-- C1 witness: the table evaluated at a transport-level refused connection
coming through the SOCKS5 dependency. -/
theorem map_proxy_connect_error_follows_table_witness :
    map_proxy_connect_error
        (ProxyError.socksError (SocksError.ioErr IOErrorKind.connectionRefused))
      = ReplyError.connectionRefused :=
  map_proxy_connect_error_follows_table.2.1 _ (Or.inr rfl)

/-- `Proxy::connect` never fails with the timeout variant: every error it
produces is an `HttpError` or `SocksError` wrapper. -/
theorem connect_never_times_out (p : Proxy) (env : ConnectEnv)
    (target_host : String) (target_port : Nat) :
    ∀ e, p.connect env target_host target_port = .error e →
      e ≠ ProxyError.connectionTimeout := by
  intro e he hc
  subst hc
  rcases p with ⟨pr, host, port, au⟩
  rcases env with ⟨tc, hc1, hc2, sc1, sc2⟩
  cases pr <;> cases au <;> cases tc <;> cases hc1 <;> cases hc2 <;>
    cases sc1 <;> cases sc2 <;> simp [Proxy.connect] at he

/-- C3: `connect_with_timeout` races the inner connect against a timer;
whenever the timer fires first the call fails with the dedicated
`ConnectionTimeout` error, which no inner connect error equals; whenever the
inner connect resolves first its result is returned unchanged. -/
theorem connect_with_timeout_races_timer (p : Proxy) (env : ConnectEnv)
    (timerFiredFirst : Bool) (target_host : String) (target_port timeout : Nat) :
    (timerFiredFirst = true →
      p.connect_with_timeout env timerFiredFirst target_host target_port timeout
        = .error ProxyError.connectionTimeout)
    ∧ (timerFiredFirst = false →
      p.connect_with_timeout env timerFiredFirst target_host target_port timeout
        = p.connect env target_host target_port)
    ∧ (∀ e, p.connect env target_host target_port = .error e →
        e ≠ ProxyError.connectionTimeout) := by
  refine ⟨?_, ?_, connect_never_times_out p env target_host target_port⟩
  · intro h; subst h; rfl
  · intro h; subst h; rfl

/-- C3 witness: with the timer firing first the call times out; the same
proxy's inner connect, when it wins the race, is passed through unchanged. -/
theorem connect_with_timeout_races_timer_witness :
    sampleProxy.connect_with_timeout sampleCEnvOk true "93.184.216.34" 443 10
      = .error ProxyError.connectionTimeout :=
  (connect_with_timeout_races_timer sampleProxy sampleCEnvOk true
    "93.184.216.34" 443 10).1 rfl

/-- C7: for every parsed URL, scheme `http` or `https` yields protocol HTTP,
scheme `socks5` yields protocol SOCKS5, any other scheme fails with
`InvalidProtocol` (never a silent default), and a missing host under an
accepted scheme fails with `InvalidHost`. -/
theorem from_url_scheme_and_host (u : ParsedUrl) :
    ((u.scheme = "http" ∨ u.scheme = "https") → ∀ h, u.host_str = some h →
      ∃ p : Proxy, Proxy.from_url (.ok u) = .ok p ∧ p.protocol = ProxyProtocol.http)
    ∧ (u.scheme = "socks5" → ∀ h, u.host_str = some h →
      ∃ p : Proxy, Proxy.from_url (.ok u) = .ok p ∧ p.protocol = ProxyProtocol.socks5)
    ∧ (u.scheme ≠ "http" → u.scheme ≠ "https" → u.scheme ≠ "socks5" →
      Proxy.from_url (.ok u) = .error (.invalidProtocol u.scheme))
    ∧ ((u.scheme = "http" ∨ u.scheme = "https" ∨ u.scheme = "socks5") →
      u.host_str = Option.none → Proxy.from_url (.ok u) = .error .invalidHost) := by
  refine ⟨?_, ?_, ?_, ?_⟩
  · rintro (h1 | h1) h hh <;>
      exact ⟨⟨ProxyProtocol.http, h, u.port_or_known_default.getD 80, u.urlAuth⟩,
        by simp [Proxy.from_url, h1, hh], rfl⟩
  · intro h1 h hh
    exact ⟨⟨ProxyProtocol.socks5, h, u.port_or_known_default.getD 80, u.urlAuth⟩,
      by simp [Proxy.from_url, h1, hh], rfl⟩
  · intro h1 h2 h3
    simp [Proxy.from_url, h1, h2, h3]
  · rintro (h1 | h1 | h1) hh <;> simp [Proxy.from_url, h1, hh]

/-- C7 witness: an `ftp` scheme is rejected with `InvalidProtocol`. -/
theorem from_url_scheme_and_host_witness :
    Proxy.from_url (.ok ⟨"ftp", some "proxy.example", Option.none, "", Option.none⟩)
      = .error (.invalidProtocol "ftp") :=
  (from_url_scheme_and_host
    ⟨"ftp", some "proxy.example", Option.none, "", Option.none⟩).2.2.1
    (by decide) (by decide) (by decide)

/-- C8 counterexample: a valid `https` proxy URL without an explicit port
parses to port 443, not 80 — `port_or_known_default` supplies the scheme
default before the `unwrap_or(80)` fallback is consulted. -/
theorem from_url_https_no_port_is_443 :
    Proxy.from_url
        (.ok ⟨"https", some "proxy.example", Option.none, "", Option.none⟩)
      = .ok ⟨ProxyProtocol.http, "proxy.example", 443, ProxyAuth.none⟩
    ∧ (443 : Nat) ≠ 80 := by
  exact ⟨rfl, by decide⟩

/-- C8 (amended): a valid proxy URL that omits an explicit port defaults to
the scheme's known default port — 80 for `http`, 443 for `https` — and to the
fallback 80 for `socks5`, whose default the URL library does not know. -/
theorem from_url_default_port (u : ParsedUrl) (h : String)
    (hh : u.host_str = some h) (hp : u.port = Option.none) :
    (u.scheme = "http" →
      ∃ p : Proxy, Proxy.from_url (.ok u) = .ok p ∧ p.port = 80)
    ∧ (u.scheme = "https" →
      ∃ p : Proxy, Proxy.from_url (.ok u) = .ok p ∧ p.port = 443)
    ∧ (u.scheme = "socks5" →
      ∃ p : Proxy, Proxy.from_url (.ok u) = .ok p ∧ p.port = 80) := by
  refine ⟨?_, ?_, ?_⟩
  · intro h1
    exact ⟨⟨ProxyProtocol.http, h, 80, u.urlAuth⟩,
      by simp [Proxy.from_url, ParsedUrl.port_or_known_default, knownDefaultPort,
        h1, hh, hp], rfl⟩
  · intro h1
    exact ⟨⟨ProxyProtocol.http, h, 443, u.urlAuth⟩,
      by simp [Proxy.from_url, ParsedUrl.port_or_known_default, knownDefaultPort,
        h1, hh, hp], rfl⟩
  · intro h1
    exact ⟨⟨ProxyProtocol.socks5, h, 80, u.urlAuth⟩,
      by simp [Proxy.from_url, ParsedUrl.port_or_known_default, knownDefaultPort,
        h1, hh, hp], rfl⟩

/-- C8 amended-claim witness: an `http` URL without a port parses to port 80. -/
theorem from_url_default_port_witness :
    ∃ p : Proxy,
      Proxy.from_url (.ok ⟨"http", some "proxy.example", Option.none, "", Option.none⟩)
        = .ok p ∧ p.port = 80 :=
  (from_url_default_port
    ⟨"http", some "proxy.example", Option.none, "", Option.none⟩
    "proxy.example" rfl rfl).1 rfl

/-! ### Helper lemmas about the connection handler -/

/-- When the target resolves and the upstream connect fails, the command
execution records the connect attempt and turns the failure into the
translated reply error. -/
theorem ecc_connect_error (env : ConnEnv) (proxy : Proxy) (timeout : Nat)
    (t : TargetAddr) (sa : SocketAddr) (rest : List SocketAddr) (err : ProxyError)
    (hta : env.targetAddr = some t)
    (hres : env.resolve = .ok (sa :: rest))
    (hconn : proxy.connect_with_timeout env.cenv env.timerFiredFirst
      sa.ip sa.port timeout = .error err) :
    execute_command_connect env proxy timeout =
      ([Event.upstreamConnect sa.ip sa.port],
        .error (.replyErr (map_proxy_connect_error err))) := by
  simp [execute_command_connect, hta, hres, hconn]

/-- When the upstream connect succeeds but the success-reply write fails, the
command execution stops with an opaque error and no reply is recorded. -/
theorem ecc_write_error (env : ConnEnv) (proxy : Proxy) (timeout : Nat)
    (t : TargetAddr) (sa : SocketAddr) (rest : List SocketAddr) (s : Nat)
    (e : IOErrorKind)
    (hta : env.targetAddr = some t)
    (hres : env.resolve = .ok (sa :: rest))
    (hconn : proxy.connect_with_timeout env.cenv env.timerFiredFirst
      sa.ip sa.port timeout = .ok s)
    (hw : env.writeReply = .error e) :
    execute_command_connect env proxy timeout =
      ([Event.upstreamConnect sa.ip sa.port],
        .error (.anyhowErr "Cannot write successful reply")) := by
  simp [execute_command_connect, hta, hres, hconn, hw]

/-- When the upstream connect and the success-reply write succeed, the trace
starts with the connect attempt and the fixed success reply; whatever follows
is relay bookkeeping (relay start and informational logs), and the result is
never a reply-classified error. -/
theorem ecc_ok_shape (env : ConnEnv) (proxy : Proxy) (timeout : Nat)
    (t : TargetAddr) (sa : SocketAddr) (rest : List SocketAddr) (s n : Nat)
    (hta : env.targetAddr = some t)
    (hres : env.resolve = .ok (sa :: rest))
    (hconn : proxy.connect_with_timeout env.cenv env.timerFiredFirst
      sa.ip sa.port timeout = .ok s)
    (hw : env.writeReply = .ok n) :
    ∃ tail res,
      execute_command_connect env proxy timeout =
        (Event.upstreamConnect sa.ip sa.port ::
          Event.sentSuccessReply successReplyBytes :: tail, res)
      ∧ (∀ e ∈ tail, e = Event.relayStarted ∨ ∃ m, e = Event.logInfo m)
      ∧ (∀ rc, res ≠ Except.error (SocksError.replyErr rc)) := by
  cases hfl : env.flushReply with
  | error e =>
    refine ⟨[], .error (.anyhowErr "Cannot flush the reply"), ?_, ?_, ?_⟩
    · simp [execute_command_connect, hta, hres, hconn, hw, hfl]
    · simp
    · intro rc; simp
  | ok u =>
    cases hcp : env.copyBidirectional with
    | ok ab =>
      obtain ⟨a, b⟩ := ab
      refine ⟨[Event.relayStarted,
        Event.logInfo s!"Socket transfer finished ({a}, {b})"], .ok (), ?_, ?_, ?_⟩
      · simp [execute_command_connect, hta, hres, hconn, hw, hfl, hcp]
      · intro e he
        simp only [List.mem_cons, List.mem_singleton, List.not_mem_nil, or_false] at he
        rcases he with rfl | rfl
        · exact Or.inl rfl
        · exact Or.inr ⟨_, rfl⟩
      · intro rc; simp
    | error k =>
      cases k with
      | notConnected =>
        refine ⟨[Event.relayStarted,
          Event.logInfo "Socket transfer closed by client"], .ok (), ?_, ?_, ?_⟩
        · simp [execute_command_connect, hta, hres, hconn, hw, hfl, hcp]
        · intro e he
          simp only [List.mem_cons, List.mem_singleton, List.not_mem_nil, or_false] at he
          rcases he with rfl | rfl
          · exact Or.inl rfl
          · exact Or.inr ⟨_, rfl⟩
        · intro rc; simp
      | connectionReset =>
        refine ⟨[Event.relayStarted,
          Event.logInfo "Socket transfer closed by downstream proxy"], .ok (), ?_, ?_, ?_⟩
        · simp [execute_command_connect, hta, hres, hconn, hw, hfl, hcp]
        · intro e he
          simp only [List.mem_cons, List.mem_singleton, List.not_mem_nil, or_false] at he
          rcases he with rfl | rfl
          · exact Or.inl rfl
          · exact Or.inr ⟨_, rfl⟩
        · intro rc; simp
      | connectionRefused =>
        refine ⟨[Event.relayStarted], .error (.ioErr IOErrorKind.connectionRefused), ?_, ?_, ?_⟩
        · simp [execute_command_connect, hta, hres, hconn, hw, hfl, hcp]
        · intro e he
          simp only [List.mem_singleton] at he
          exact Or.inl he
        · intro rc; simp
      | connectionAborted =>
        refine ⟨[Event.relayStarted], .error (.ioErr IOErrorKind.connectionAborted), ?_, ?_, ?_⟩
        · simp [execute_command_connect, hta, hres, hconn, hw, hfl, hcp]
        · intro e he
          simp only [List.mem_singleton] at he
          exact Or.inl he
        · intro rc; simp
      | timedOut =>
        refine ⟨[Event.relayStarted], .error (.ioErr IOErrorKind.timedOut), ?_, ?_, ?_⟩
        · simp [execute_command_connect, hta, hres, hconn, hw, hfl, hcp]
        · intro e he
          simp only [List.mem_singleton] at he
          exact Or.inl he
        · intro rc; simp
      | brokenPipe =>
        refine ⟨[Event.relayStarted], .error (.ioErr IOErrorKind.brokenPipe), ?_, ?_, ?_⟩
        · simp [execute_command_connect, hta, hres, hconn, hw, hfl, hcp]
        · intro e he
          simp only [List.mem_singleton] at he
          exact Or.inl he
        · intro rc; simp
      | other c =>
        refine ⟨[Event.relayStarted], .error (.ioErr (IOErrorKind.other c)), ?_, ?_, ?_⟩
        · simp [execute_command_connect, hta, hres, hconn, hw, hfl, hcp]
        · intro e he
          simp only [List.mem_singleton] at he
          exact Or.inl he
        · intro rc; simp

/-- `handle_socket` passes a non-reply-classified command outcome through
unchanged: same trace, same result. -/
theorem handle_eq_ecc (env : ConnEnv) (proxy : Proxy) (timeout : Nat)
    (evs : List Event) (res : Except SocksError Unit)
    (hup : env.upgrade = .ok ())
    (hcmd : env.command = some Socks5Command.tcpConnect)
    (hecc : execute_command_connect env proxy timeout = (evs, res))
    (hnr : ∀ rc, res ≠ .error (SocksError.replyErr rc)) :
    handle_socket env proxy timeout = (evs, res) := by
  cases res with
  | ok u => cases u; simp [handle_socket, execute_command, hup, hcmd, hecc]
  | error e =>
    cases e with
    | replyErr rc => exact absurd rfl (hnr rc)
    | ioErr k => simp [handle_socket, execute_command, hup, hcmd, hecc]
    | anyhowErr m => simp [handle_socket, execute_command, hup, hcmd, hecc]
    | other c => simp [handle_socket, execute_command, hup, hcmd, hecc]

/-- `handle_socket` appends the failure reply to the trace when the command
outcome is a reply-classified error and the reply write succeeds. -/
theorem handle_eq_ecc_reply (env : ConnEnv) (proxy : Proxy) (timeout : Nat)
    (evs : List Event) (rc : ReplyError)
    (hup : env.upgrade = .ok ())
    (hcmd : env.command = some Socks5Command.tcpConnect)
    (hecc : execute_command_connect env proxy timeout
      = (evs, .error (SocksError.replyErr rc)))
    (hsend : env.replyErrorSend = .ok ()) :
    handle_socket env proxy timeout =
      (evs ++ [Event.sentFailureReply rc], .error (.replyErr rc)) := by
  simp [handle_socket, execute_command, hup, hcmd, hecc, hsend]

/-- The trace `handle_socket` emits is the command execution's trace, possibly
extended by one failure reply. -/
theorem handle_trace_shape (env : ConnEnv) (proxy : Proxy) (timeout : Nat)
    (evs : List Event) (res : Except SocksError Unit)
    (hup : env.upgrade = .ok ())
    (hcmd : env.command = some Socks5Command.tcpConnect)
    (hecc : execute_command_connect env proxy timeout = (evs, res)) :
    (handle_socket env proxy timeout).1 = evs
    ∨ ∃ rc, (handle_socket env proxy timeout).1
        = evs ++ [Event.sentFailureReply rc] := by
  cases res with
  | ok u => cases u; left; simp [handle_socket, execute_command, hup, hcmd, hecc]
  | error e =>
    cases e with
    | replyErr rc =>
      cases hsend : env.replyErrorSend with
      | error e2 =>
        left; simp [handle_socket, execute_command, hup, hcmd, hecc, hsend]
      | ok u =>
        right
        exact ⟨rc, by simp [handle_socket, execute_command, hup, hcmd, hecc, hsend]⟩
    | ioErr k => left; simp [handle_socket, execute_command, hup, hcmd, hecc]
    | anyhowErr m => left; simp [handle_socket, execute_command, hup, hcmd, hecc]
    | other c => left; simp [handle_socket, execute_command, hup, hcmd, hecc]

/-- A trace of relay bookkeeping delivers no reply to the client. -/
theorem clientReplies_eq_nil {tail : List Event}
    (h : ∀ e ∈ tail, e = Event.relayStarted ∨ ∃ m, e = Event.logInfo m) :
    clientReplies tail = [] := by
  rw [clientReplies, List.filter_eq_nil_iff]
  intro e he
  rcases h e he with rfl | ⟨m, rfl⟩ <;> simp [isClientReply]

/-- The replies delivered by a success-path trace: exactly the one success
reply. -/
theorem clientReplies_success_trace (sa : SocketAddr) (tail : List Event)
    (h : ∀ e ∈ tail, e = Event.relayStarted ∨ ∃ m, e = Event.logInfo m) :
    clientReplies (Event.upstreamConnect sa.ip sa.port ::
        Event.sentSuccessReply successReplyBytes :: tail)
      = [Event.sentSuccessReply successReplyBytes] := by
  have htn := clientReplies_eq_nil h
  rw [clientReplies] at htn ⊢
  simp [List.filter_cons, isClientReply, htn]

/-- C4: for every inbound connection whose requested command is not CONNECT
(BIND, UDP ASSOCIATE, or an absent command), the handler replies
`CommandNotSupported` to the client and terminates without ever invoking the
upstream proxy connect. -/
theorem non_connect_command_rejected (env : ConnEnv) (proxy : Proxy) (timeout : Nat)
    (hup : env.upgrade = .ok ())
    (hcmd : env.command ≠ some Socks5Command.tcpConnect)
    (hsend : env.replyErrorSend = .ok ()) :
    handle_socket env proxy timeout =
      ([Event.sentFailureReply ReplyError.commandNotSupported],
        .error (.replyErr ReplyError.commandNotSupported))
    ∧ ∀ h p, Event.upstreamConnect h p ∉ (handle_socket env proxy timeout).1 := by
  have hexec : execute_command env proxy timeout
      = ([], .error (.replyErr ReplyError.commandNotSupported)) := by
    rcases hc : env.command with _ | c
    · simp [execute_command, hc]
    · cases c with
      | tcpConnect => exact absurd hc hcmd
      | tcpBind => simp [execute_command, hc]
      | udpAssociate => simp [execute_command, hc]
  constructor
  · simp [handle_socket, hup, hexec, hsend]
  · intro h p
    simp [handle_socket, hup, hexec, hsend]

/-- C4 witness: a BIND command is rejected with `CommandNotSupported` and no
upstream connect happens. -/
theorem non_connect_command_rejected_witness :
    handle_socket bindCommandEnv sampleProxy 10 =
      ([Event.sentFailureReply ReplyError.commandNotSupported],
        .error (.replyErr ReplyError.commandNotSupported)) :=
  (non_connect_command_rejected bindCommandEnv sampleProxy 10 rfl
    (by decide) rfl).1

/-- C5: for every inbound CONNECT whose upstream connect attempt fails, the
handler translates the failure into a reply code, sends that failure reply to
the client, and terminates with an error reflecting the failure; the
connection never enters the relaying state — no success reply is sent and no
bytes are relayed. -/
theorem failed_connect_replies_failure (env : ConnEnv) (proxy : Proxy) (timeout : Nat)
    (t : TargetAddr) (sa : SocketAddr) (rest : List SocketAddr) (err : ProxyError)
    (hup : env.upgrade = .ok ())
    (hcmd : env.command = some Socks5Command.tcpConnect)
    (hta : env.targetAddr = some t)
    (hres : env.resolve = .ok (sa :: rest))
    (hconn : proxy.connect_with_timeout env.cenv env.timerFiredFirst
      sa.ip sa.port timeout = .error err)
    (hsend : env.replyErrorSend = .ok ()) :
    handle_socket env proxy timeout =
      ([Event.upstreamConnect sa.ip sa.port,
        Event.sentFailureReply (map_proxy_connect_error err)],
        .error (.replyErr (map_proxy_connect_error err)))
    ∧ Event.relayStarted ∉ (handle_socket env proxy timeout).1
    ∧ (∀ b, Event.sentSuccessReply b ∉ (handle_socket env proxy timeout).1) := by
  have hecc := ecc_connect_error env proxy timeout t sa rest err hta hres hconn
  have hh := handle_eq_ecc_reply env proxy timeout _ _ hup hcmd hecc hsend
  refine ⟨by rw [hh]; simp, ?_, ?_⟩
  · rw [hh]; simp
  · intro b; rw [hh]; simp

/-- C5 witness: a transport-level refused upstream connect yields exactly the
`ConnectionRefused` failure reply and an error result, with no relaying. -/
theorem failed_connect_replies_failure_witness :
    handle_socket refusedConnectEnv sampleProxy 10 =
      ([Event.upstreamConnect "93.184.216.34" 443,
        Event.sentFailureReply ReplyError.connectionRefused],
        .error (.replyErr ReplyError.connectionRefused)) :=
  (failed_connect_replies_failure refusedConnectEnv sampleProxy 10
    (TargetAddr.domain "example.com" 443) ⟨"93.184.216.34", 443⟩ []
    (ProxyError.httpError (HttpError.ioError IOErrorKind.connectionRefused))
    rfl rfl rfl rfl rfl rfl).1

/-- C6: for every inbound CONNECT whose upstream connect succeeds, the
success reply sent to the client is exactly the fixed ten-byte sequence
version 5, reply 0, reserved 0, address type 1 (IPv4), address 127.0.0.1,
port 0 — independent of every oracle, hence of the real upstream-side local
endpoint. -/
theorem success_reply_fixed_bytes (env : ConnEnv) (proxy : Proxy) (timeout : Nat)
    (t : TargetAddr) (sa : SocketAddr) (rest : List SocketAddr) (s n : Nat)
    (hup : env.upgrade = .ok ())
    (hcmd : env.command = some Socks5Command.tcpConnect)
    (hta : env.targetAddr = some t)
    (hres : env.resolve = .ok (sa :: rest))
    (hconn : proxy.connect_with_timeout env.cenv env.timerFiredFirst
      sa.ip sa.port timeout = .ok s)
    (hw : env.writeReply = .ok n) :
    successReplyBytes = [5, 0, 0, 1, 127, 0, 0, 1, 0, 0]
    ∧ Event.sentSuccessReply [5, 0, 0, 1, 127, 0, 0, 1, 0, 0]
        ∈ (handle_socket env proxy timeout).1
    ∧ ∀ b, Event.sentSuccessReply b ∈ (handle_socket env proxy timeout).1 →
        b = [5, 0, 0, 1, 127, 0, 0, 1, 0, 0] := by
  obtain ⟨tail, res, hecc, htail, hnr⟩ :=
    ecc_ok_shape env proxy timeout t sa rest s n hta hres hconn hw
  have htr := handle_trace_shape env proxy timeout _ _ hup hcmd hecc
  refine ⟨rfl, ?_, ?_⟩
  · rcases htr with h | ⟨rc, h⟩ <;> rw [h] <;> simp [successReplyBytes]
  · intro b
    rcases htr with h | ⟨rc, h⟩ <;> rw [h] <;> intro hm <;>
      simp only [List.mem_cons, List.mem_append, List.mem_singleton,
        Event.sentSuccessReply.injEq] at hm
    · rcases hm with hm | hm | hm
      · exact absurd hm (by simp)
      · rw [hm]; rfl
      · rcases htail _ hm with h1 | ⟨m, h1⟩ <;> exact Event.noConfusion h1
    · rcases hm with (hm | hm | hm) | hm
      · exact absurd hm (by simp)
      · rw [hm]; rfl
      · rcases htail _ hm with h1 | ⟨m, h1⟩ <;> exact Event.noConfusion h1
      · exact absurd hm (by simp)

/-- C6 witness: on a clean successful run the fixed success reply is in the
trace. -/
theorem success_reply_fixed_bytes_witness :
    Event.sentSuccessReply [5, 0, 0, 1, 127, 0, 0, 1, 0, 0]
      ∈ (handle_socket cleanRunEnv sampleProxy 10).1 :=
  (success_reply_fixed_bytes cleanRunEnv sampleProxy 10
    (TargetAddr.domain "example.com" 443) ⟨"93.184.216.34", 443⟩ [] 7 10
    rfl rfl rfl rfl rfl rfl).2.1

/-- C2 counterexample: the SOCKS5 handshake succeeded and the client issued a
CONNECT request, but DNS resolution of the target fails; the handler
terminates with a non-reply error and the client receives no reply at all. -/
theorem connect_request_no_reply_on_dns_failure :
    handle_socket dnsFailEnv sampleProxy 10
      = ([], .error (.ioErr (IOErrorKind.other 11001)))
    ∧ clientReplies (handle_socket dnsFailEnv sampleProxy 10).1 = [] :=
  ⟨rfl, rfl⟩

/-- C2 (amended): for every inbound connection whose handshake succeeds and
that issues a CONNECT request, provided the target address is present and
resolves to at least one address and writes to the client succeed, the client
receives exactly one well-formed SOCKS5 reply: either the fixed success reply
or the translated failure reply code — never a raw internal error. -/
theorem connect_request_replied (env : ConnEnv) (proxy : Proxy) (timeout : Nat)
    (t : TargetAddr) (sa : SocketAddr) (rest : List SocketAddr) (n : Nat)
    (hup : env.upgrade = .ok ())
    (hcmd : env.command = some Socks5Command.tcpConnect)
    (hta : env.targetAddr = some t)
    (hres : env.resolve = .ok (sa :: rest))
    (hw : env.writeReply = .ok n)
    (hsend : env.replyErrorSend = .ok ()) :
    clientReplies (handle_socket env proxy timeout).1
        = [Event.sentSuccessReply successReplyBytes]
    ∨ ∃ err, proxy.connect_with_timeout env.cenv env.timerFiredFirst
          sa.ip sa.port timeout = .error err
        ∧ clientReplies (handle_socket env proxy timeout).1
            = [Event.sentFailureReply (map_proxy_connect_error err)] := by
  cases hconn : proxy.connect_with_timeout env.cenv env.timerFiredFirst
      sa.ip sa.port timeout with
  | error err =>
    right
    refine ⟨err, rfl, ?_⟩
    have hecc := ecc_connect_error env proxy timeout t sa rest err hta hres hconn
    have hh := handle_eq_ecc_reply env proxy timeout _ _ hup hcmd hecc hsend
    rw [hh]
    rfl
  | ok s =>
    left
    obtain ⟨tail, res, hecc, htail, hnr⟩ :=
      ecc_ok_shape env proxy timeout t sa rest s n hta hres hconn hw
    have hh := handle_eq_ecc env proxy timeout _ _ hup hcmd hecc hnr
    rw [hh]
    exact clientReplies_success_trace sa tail htail

/-- C2 amended-claim witness: a clean successful run delivers exactly the
fixed success reply (or a translated failure code). -/
theorem connect_request_replied_witness :
    clientReplies (handle_socket cleanRunEnv sampleProxy 10).1
        = [Event.sentSuccessReply successReplyBytes]
    ∨ ∃ err, sampleProxy.connect_with_timeout cleanRunEnv.cenv
          cleanRunEnv.timerFiredFirst "93.184.216.34" 443 10 = .error err
        ∧ clientReplies (handle_socket cleanRunEnv sampleProxy 10).1
            = [Event.sentFailureReply (map_proxy_connect_error err)] :=
  connect_request_replied cleanRunEnv sampleProxy 10
    (TargetAddr.domain "example.com" 443) ⟨"93.184.216.34", 443⟩ [] 10
    rfl rfl rfl rfl rfl rfl

/-- C9 counterexample: a genuine ConnectionReset transport failure during
relaying is not surfaced as an error — the handler returns success and logs
the close as informational, attributing it to the downstream proxy. -/
theorem relay_reset_treated_as_clean_close :
    (handle_socket resetCopyEnv sampleProxy 10).2 = .ok ()
    ∧ Event.logInfo "Socket transfer closed by downstream proxy"
        ∈ (handle_socket resetCopyEnv sampleProxy 10).1 := by
  refine ⟨rfl, ?_⟩
  have h : (handle_socket resetCopyEnv sampleProxy 10).1
      = [Event.upstreamConnect "93.184.216.34" 443,
         Event.sentSuccessReply successReplyBytes,
         Event.relayStarted,
         Event.logInfo "Socket transfer closed by downstream proxy"] := rfl
  rw [h]
  simp

/-- C9 (amended): during relaying, a clean close (the bidirectional copy
finishing) ends the connection normally with an informational log; a
`NotConnected` or `ConnectionReset` I/O failure is likewise treated as a
peer-initiated close (success result, informational log); any other I/O
failure — for example `ConnectionAborted` — is surfaced as the connection's
error. Both outcomes end the connection. -/
theorem relay_close_vs_error (env : ConnEnv) (proxy : Proxy) (timeout : Nat)
    (t : TargetAddr) (sa : SocketAddr) (rest : List SocketAddr) (s n : Nat)
    (hup : env.upgrade = .ok ())
    (hcmd : env.command = some Socks5Command.tcpConnect)
    (hta : env.targetAddr = some t)
    (hres : env.resolve = .ok (sa :: rest))
    (hconn : proxy.connect_with_timeout env.cenv env.timerFiredFirst
      sa.ip sa.port timeout = .ok s)
    (hw : env.writeReply = .ok n)
    (hfl : env.flushReply = .ok ()) :
    (∀ a b, env.copyBidirectional = .ok (a, b) →
      handle_socket env proxy timeout =
        ([Event.upstreamConnect sa.ip sa.port,
          Event.sentSuccessReply successReplyBytes, Event.relayStarted,
          Event.logInfo s!"Socket transfer finished ({a}, {b})"], .ok ()))
    ∧ (env.copyBidirectional = .error IOErrorKind.notConnected →
      handle_socket env proxy timeout =
        ([Event.upstreamConnect sa.ip sa.port,
          Event.sentSuccessReply successReplyBytes, Event.relayStarted,
          Event.logInfo "Socket transfer closed by client"], .ok ()))
    ∧ (env.copyBidirectional = .error IOErrorKind.connectionReset →
      handle_socket env proxy timeout =
        ([Event.upstreamConnect sa.ip sa.port,
          Event.sentSuccessReply successReplyBytes, Event.relayStarted,
          Event.logInfo "Socket transfer closed by downstream proxy"], .ok ()))
    ∧ (∀ k, env.copyBidirectional = .error k →
        k ≠ IOErrorKind.notConnected → k ≠ IOErrorKind.connectionReset →
        handle_socket env proxy timeout =
          ([Event.upstreamConnect sa.ip sa.port,
            Event.sentSuccessReply successReplyBytes, Event.relayStarted],
            .error (.ioErr k))) := by
  refine ⟨?_, ?_, ?_, ?_⟩
  · intro a b hcp
    exact handle_eq_ecc env proxy timeout _ _ hup hcmd
      (by simp [execute_command_connect, hta, hres, hconn, hw, hfl, hcp])
      (fun rc => by simp)
  · intro hcp
    exact handle_eq_ecc env proxy timeout _ _ hup hcmd
      (by simp [execute_command_connect, hta, hres, hconn, hw, hfl, hcp])
      (fun rc => by simp)
  · intro hcp
    exact handle_eq_ecc env proxy timeout _ _ hup hcmd
      (by simp [execute_command_connect, hta, hres, hconn, hw, hfl, hcp])
      (fun rc => by simp)
  · intro k hcp hk1 hk2
    cases k <;>
      first
      | exact absurd rfl hk1
      | exact absurd rfl hk2
      | exact handle_eq_ecc env proxy timeout _ _ hup hcmd
          (by simp [execute_command_connect, hta, hres, hconn, hw, hfl, hcp])
          (fun rc => by simp)

/-- C9 amended-claim witness: a cleanly finishing relay ends with success and
an informational transfer-finished log. -/
theorem relay_close_vs_error_witness :
    handle_socket cleanRunEnv sampleProxy 10 =
      ([Event.upstreamConnect "93.184.216.34" 443,
        Event.sentSuccessReply successReplyBytes, Event.relayStarted,
        Event.logInfo "Socket transfer finished (42, 37)"], .ok ()) :=
  (relay_close_vs_error cleanRunEnv sampleProxy 10
    (TargetAddr.domain "example.com" 443) ⟨"93.184.216.34", 443⟩ [] 7 10
    rfl rfl rfl rfl rfl rfl rfl).1 42 37 rfl

/-- C10: for every inbound CONNECT, the handler resolves the client-supplied
target locally and hands only the first resolved IP address (as a string) and
its port to the upstream proxy client — every recorded upstream connect
carries exactly those arguments; if the target address is absent, resolves to
no addresses, or fails to resolve, the handler fails before any upstream
connect attempt. -/
theorem target_resolved_before_connect (env : ConnEnv) (proxy : Proxy)
    (timeout : Nat)
    (hup : env.upgrade = .ok ())
    (hcmd : env.command = some Socks5Command.tcpConnect) :
    (∀ t sa rest, env.targetAddr = some t → env.resolve = .ok (sa :: rest) →
      Event.upstreamConnect sa.ip sa.port ∈ (handle_socket env proxy timeout).1
      ∧ ∀ h p, Event.upstreamConnect h p ∈ (handle_socket env proxy timeout).1 →
          h = sa.ip ∧ p = sa.port)
    ∧ (env.targetAddr = Option.none →
      handle_socket env proxy timeout
        = ([], .error (.anyhowErr "Empty target address")))
    ∧ (∀ t, env.targetAddr = some t → env.resolve = .ok [] →
      handle_socket env proxy timeout
        = ([], .error (.anyhowErr "Unreachable target")))
    ∧ (∀ t e, env.targetAddr = some t → env.resolve = .error e →
      handle_socket env proxy timeout = ([], .error (.ioErr e))) := by
  refine ⟨?_, ?_, ?_, ?_⟩
  · intro t sa rest hta hres
    have key : ∃ evs res, execute_command_connect env proxy timeout = (evs, res)
        ∧ (evs = [Event.upstreamConnect sa.ip sa.port]
           ∨ ∃ tail, evs = Event.upstreamConnect sa.ip sa.port ::
               Event.sentSuccessReply successReplyBytes :: tail
             ∧ ∀ e ∈ tail, e = Event.relayStarted ∨ ∃ m, e = Event.logInfo m) := by
      cases hconn : proxy.connect_with_timeout env.cenv env.timerFiredFirst
          sa.ip sa.port timeout with
      | error err =>
        exact ⟨_, _, ecc_connect_error env proxy timeout t sa rest err hta hres hconn,
          Or.inl rfl⟩
      | ok s =>
        cases hw : env.writeReply with
        | error e =>
          exact ⟨_, _, ecc_write_error env proxy timeout t sa rest s e hta hres hconn hw,
            Or.inl rfl⟩
        | ok n =>
          obtain ⟨tail, res, hecc, htail, hnr⟩ :=
            ecc_ok_shape env proxy timeout t sa rest s n hta hres hconn hw
          exact ⟨_, _, hecc, Or.inr ⟨tail, rfl, htail⟩⟩
    obtain ⟨evs, res, hecc, hshape⟩ := key
    have htr := handle_trace_shape env proxy timeout evs res hup hcmd hecc
    constructor
    · rcases htr with h | ⟨rc, h⟩ <;> rw [h] <;>
        rcases hshape with rfl | ⟨tail, rfl, _⟩ <;> simp
    · intro h p
      rcases htr with htr1 | ⟨rc, htr1⟩ <;> rw [htr1] <;>
        rcases hshape with rfl | ⟨tail, rfl, htail⟩ <;> intro hm <;>
        simp only [List.mem_cons, List.mem_append, List.mem_singleton,
          List.not_mem_nil, or_false, Event.upstreamConnect.injEq] at hm
      · exact hm
      · rcases hm with hm | hm | hm
        · exact hm
        · exact absurd hm (by simp)
        · rcases htail _ hm with h1 | ⟨m, h1⟩ <;> exact Event.noConfusion h1
      · rcases hm with hm | hm
        · exact hm
        · exact absurd hm (by simp)
      · rcases hm with (hm | hm | hm) | hm
        · exact hm
        · exact absurd hm (by simp)
        · rcases htail _ hm with h1 | ⟨m, h1⟩ <;> exact Event.noConfusion h1
        · exact absurd hm (by simp)
  · intro hta
    exact handle_eq_ecc env proxy timeout _ _ hup hcmd
      (by simp [execute_command_connect, hta]) (fun rc => by simp)
  · intro t hta hres
    exact handle_eq_ecc env proxy timeout _ _ hup hcmd
      (by simp [execute_command_connect, hta, hres]) (fun rc => by simp)
  · intro t e hta hres
    exact handle_eq_ecc env proxy timeout _ _ hup hcmd
      (by simp [execute_command_connect, hta, hres]) (fun rc => by simp)

/-- C10 witness: on a clean run the upstream connect is invoked with the
first resolved IP address and port. -/
theorem target_resolved_before_connect_witness :
    Event.upstreamConnect "93.184.216.34" 443
      ∈ (handle_socket cleanRunEnv sampleProxy 10).1 :=
  ((target_resolved_before_connect cleanRunEnv sampleProxy 10 rfl rfl).1
    (TargetAddr.domain "example.com" 443) ⟨"93.184.216.34", 443⟩ [] rfl rfl).1

end ProxyRouter
